import Mathlib

/-!
Shallow embedding of the wanderplan budget subsystem
(src/budget.py, src/database.py, src/ollama_service.py).

Python floats are modelled as exact rationals; Python's 2-argument
round (round-half-to-even) is `roundHalfEven` scaled by a power of ten.
Python truthiness on optional numbers / strings is modelled explicitly
(None, 0 and the empty string are falsy).
-/

namespace WanderPlan

/-- Round half to even (banker's rounding), as Python's built-in round. -/
def roundHalfEven (q : ℚ) : ℤ :=
  let n := ⌊q⌋
  let r := q - (n : ℚ)
  if r < 1/2 then n
  else if 1/2 < r then n + 1
  else if n % 2 = 0 then n else n + 1

/-- Python round(x, 2) over exact rationals. -/
def round2 (q : ℚ) : ℚ := (roundHalfEven (q * 100) : ℚ) / 100

/-- Python round(x, 1) over exact rationals. -/
def round1 (q : ℚ) : ℚ := (roundHalfEven (q * 10) : ℚ) / 10

/-- Python truthiness of an optional float: None and 0.0 are falsy. -/
def qTruthy : Option ℚ → Bool
  | none => false
  | some x => x != 0

/-- Python truthiness of an optional string: None and the empty string are falsy. -/
def sTruthy : Option String → Bool
  | none => false
  | some s => s != ""

/-- Python truthiness of an optional int: None and 0 are falsy. -/
def iTruthy : Option ℤ → Bool
  | none => false
  | some x => x != 0

/-- Python `o or d` for an optional string (empty string falls through to the default). -/
def strOrDefault (o : Option String) (d : String) : String :=
  match o with
  | some s => if s = "" then d else s
  | none => d

/-- Python str.upper() on the ASCII range (currency codes are ASCII). -/
def pyUpper (s : String) : String := String.mk (s.data.map Char.toUpper)

-- ── database.py ──────────────────────────────────────────────────────────────

/-- EXPENSE_CATEGORIES from src/database.py line 12. -/
def EXPENSE_CATEGORIES : List String :=
  ["accommodation", "food", "transport", "activities", "shopping", "other"]

/-- One category entry of the budget_estimates JSON blob:
a JSON object that may or may not carry the "amount" and "notes" keys. -/
structure CategoryEstimate where
  amount : Option ℚ
  notes : Option String
  deriving DecidableEq

/-- The budget_estimates JSON blob stored on a Trip (src/database.py line 30):
per-category entries plus the top-level total / currency / summary keys,
each of which may be absent. -/
structure Estimates where
  entries : List (String × CategoryEstimate)
  total : Option ℚ
  currency : Option String
  summary : Option String
  deriving DecidableEq

/-- The empty JSON object used as the fallback for a missing estimates blob. -/
def emptyEstimates : Estimates := ⟨[], none, none, none⟩

/-- Budget-relevant subset of the Trip row (src/database.py lines 15-34);
title/description/coordinates/created_at are irrelevant to the claims. -/
structure Trip where
  id : ℕ
  destination : String
  start_date : Option String
  end_date : Option String
  budget_total : Option ℚ
  budget_currency : Option String
  budget_estimates : Option Estimates
  deriving DecidableEq

/-- The Expense row (src/database.py lines 47-58); created_at timestamps are
not modelled (the claims never depend on creation-time ordering). -/
structure Expense where
  id : ℕ
  trip_id : ℕ
  category : String
  description : String
  amount : ℚ
  currency : String
  date : Option String
  notes : Option String
  deriving DecidableEq

-- ── budget.py: helpers and compute_summary ───────────────────────────────────

/-- CATEGORY_ICONS from src/budget.py lines 12-19. -/
def CATEGORY_ICONS (c : String) : String :=
  if c = "accommodation" then "🏨"
  else if c = "food" then "🍜"
  else if c = "transport" then "✈️"
  else if c = "activities" then "🎭"
  else if c = "shopping" then "🛍️"
  else "📦"

/-- Amount spent in one category: the by_category accumulation of
src/budget.py lines 63-65 read back for one category key. -/
def spentFor (expenses : List Expense) (cat : String) : ℚ :=
  ((expenses.filter (fun e => e.category == cat)).map (fun e => e.amount)).sum

/-- sum(by_category.values()) of src/budget.py line 66: grouping by category
and then summing the group totals only reorders the additions, so over exact
rationals it is the sum of all expense amounts. -/
def totalSpentRaw (expenses : List Expense) : ℚ :=
  (expenses.map (fun e => e.amount)).sum

/-- estimates.get(cat, \x7b\x7d).get("amount", 0.0) of src/budget.py line 72. -/
def estimatedFor (est : Estimates) (cat : String) : ℚ :=
  match est.entries.find? (fun p => p.1 == cat) with
  | some p => p.2.amount.getD 0
  | none => 0

/-- One element of the categories list built in src/budget.py lines 69-80. -/
structure CategoryLine where
  category : String
  icon : String
  spent : ℚ
  estimated : ℚ
  pct_of_budget : Option ℚ
  pct_of_estimate : Option ℚ
  deriving DecidableEq

/-- The dict returned by compute_summary (src/budget.py lines 82-90). -/
structure Summary where
  budget_total : Option ℚ
  budget_currency : String
  total_spent : ℚ
  remaining : Option ℚ
  pct_used : Option ℚ
  categories : List CategoryLine
  estimates : Estimates
  deriving DecidableEq

/-- The per-category record of src/budget.py lines 73-80. -/
def categoryLine (trip : Trip) (est : Estimates) (expenses : List Expense)
    (cat : String) : CategoryLine :=
  let spent := spentFor expenses cat
  let estimated := estimatedFor est cat
  { category := cat
    icon := CATEGORY_ICONS cat
    spent := spent
    estimated := estimated
    pct_of_budget :=
      match trip.budget_total with
      | some bt => if bt = 0 then none else some (round1 (spent / bt * 100))
      | none => none
    pct_of_estimate := if estimated = 0 then none else some (round1 (spent / estimated * 100)) }

/-- compute_summary, src/budget.py lines 61-90. -/
def compute_summary (trip : Trip) (expenses : List Expense) : Summary :=
  let est := trip.budget_estimates.getD emptyEstimates
  { budget_total := trip.budget_total
    budget_currency := strOrDefault trip.budget_currency "USD"
    total_spent := round2 (totalSpentRaw expenses)
    remaining :=
      match trip.budget_total with
      | some bt => if bt = 0 then none else some (round2 (bt - totalSpentRaw expenses))
      | none => none
    pct_used :=
      match trip.budget_total with
      | some bt => if bt = 0 then none else some (round1 (totalSpentRaw expenses / bt * 100))
      | none => none
    categories := EXPENSE_CATEGORIES.map (categoryLine trip est expenses)
    estimates := est }

-- ── Request bodies (pydantic models, src/budget.py lines 23-47) ──────────────

/-- BudgetUpdate, src/budget.py lines 23-25. -/
structure BudgetUpdate where
  budget_total : Option ℚ := none
  budget_currency : Option String := none
  deriving DecidableEq

/-- ExpenseCreate, src/budget.py lines 27-33. -/
structure ExpenseCreate where
  category : String
  description : String
  amount : ℚ
  currency : Option String := none
  date : Option String := none
  notes : Option String := none
  deriving DecidableEq

/-- ExpenseUpdate, src/budget.py lines 35-41. -/
structure ExpenseUpdate where
  category : Option String := none
  description : Option String := none
  amount : Option ℚ := none
  currency : Option String := none
  date : Option String := none
  notes : Option String := none
  deriving DecidableEq

/-- EstimateRequest, src/budget.py lines 43-47. -/
structure EstimateRequest where
  model : String := "llama3"
  travelers : ℕ := 1
  duration_days : Option ℤ := none
  travel_style : String := "mid-range"
  deriving DecidableEq

-- ── Persistent store and HTTP errors ─────────────────────────────────────────

/-- The relational store consumed through SQLAlchemy: the trips and expenses
tables plus the autoincrement counter for expense primary keys. -/
structure Store where
  trips : List Trip
  expenses : List Expense
  nextExpenseId : ℕ
  deriving DecidableEq

/-- An HTTPException(status, detail) raised by a handler. -/
structure HTTPException where
  status : ℕ
  detail : String
  deriving DecidableEq

/-- db.query(Trip).filter(Trip.id == trip_id).first(). -/
def findTrip (st : Store) (trip_id : ℕ) : Option Trip :=
  st.trips.find? (fun t => t.id == trip_id)

/-- db.query(Expense).filter(Expense.id == expense_id, Expense.trip_id == trip_id).first(). -/
def findExpense (st : Store) (trip_id expense_id : ℕ) : Option Expense :=
  st.expenses.find? (fun e => e.id == expense_id && e.trip_id == trip_id)

/-- db.query(Expense).filter(Expense.trip_id == trip_id).all(). -/
def tripExpenses (st : Store) (trip_id : ℕ) : List Expense :=
  st.expenses.filter (fun e => e.trip_id == trip_id)

/-- ORM in-place mutation of the trip row with the given id, followed by commit. -/
def writeTrip (st : Store) (trip_id : ℕ) (trip : Trip) : Store :=
  { st with trips := st.trips.map (fun t => if t.id == trip_id then trip else t) }

-- Each handler returns its response (or the raised HTTPException) together with
-- the store as it stands when the handler exits; a raise before db.commit()
-- leaves the store unchanged.

-- ── update_budget_settings, src/budget.py lines 105-116 ──────────────────────

/-- The two guarded field writes of src/budget.py lines 110-113: only the
fields present in the request body are applied. -/
def applySettings (trip : Trip) (data : BudgetUpdate) : Trip :=
  let trip1 :=
    match data.budget_total with
    | some v => { trip with budget_total := some v }
    | none => trip
  match data.budget_currency with
  | some c => { trip1 with budget_currency := some (pyUpper c) }
  | none => trip1

/-- PATCH settings handler: partial update of budget_total / budget_currency. -/
def update_budget_settings (st : Store) (trip_id : ℕ) (data : BudgetUpdate) :
    Except HTTPException Summary × Store :=
  match findTrip st trip_id with
  | none => (.error ⟨404, "Trip not found"⟩, st)
  | some trip =>
    let trip2 := applySettings trip data
    let st1 := writeTrip st trip_id trip2
    (.ok (compute_summary trip2 (tripExpenses st1 trip_id)), st1)

-- ── add_expense, src/budget.py lines 195-216 ─────────────────────────────────

/-- POST expenses handler: validates the category and inserts a row. -/
def add_expense (st : Store) (trip_id : ℕ) (data : ExpenseCreate) :
    Except HTTPException (Expense × Summary) × Store :=
  match findTrip st trip_id with
  | none => (.error ⟨404, "Trip not found"⟩, st)
  | some trip =>
    if data.category ∉ EXPENSE_CATEGORIES then
      (.error ⟨400, "category must be one of: accommodation, food, transport, activities, shopping, other"⟩, st)
    else
      let expense : Expense :=
        { id := st.nextExpenseId
          trip_id := trip_id
          category := data.category
          description := data.description
          amount := data.amount
          currency := strOrDefault data.currency (strOrDefault trip.budget_currency "USD")
          date := data.date
          notes := data.notes }
      let st1 := { st with expenses := st.expenses ++ [expense],
                           nextExpenseId := st.nextExpenseId + 1 }
      (.ok (expense, compute_summary trip (tripExpenses st1 trip_id)), st1)

-- ── update_expense, src/budget.py lines 218-228 ──────────────────────────────

/-- setattr loop over data.dict(exclude_none=True), src/budget.py lines 223-224.
No category validation happens on this path. -/
def applyExpenseUpdate (e : Expense) (d : ExpenseUpdate) : Expense :=
  { e with
    category := d.category.getD e.category
    description := d.description.getD e.description
    amount := d.amount.getD e.amount
    currency := d.currency.getD e.currency
    date := match d.date with | some s => some s | none => e.date
    notes := match d.notes with | some s => some s | none => e.notes }

/-- PUT expense handler: partial in-place update of one expense row.
If the owning trip row is missing after the commit (dangling foreign key),
the Python handler crashes with an uncaught AttributeError, i.e. a 500,
after the expense mutation has already been committed. -/
def update_expense (st : Store) (trip_id expense_id : ℕ) (data : ExpenseUpdate) :
    Except HTTPException (Expense × Summary) × Store :=
  match findExpense st trip_id expense_id with
  | none => (.error ⟨404, "Expense not found"⟩, st)
  | some expense =>
    let expense1 := applyExpenseUpdate expense data
    let rows := st.expenses.map
      (fun e => if e.id == expense_id && e.trip_id == trip_id then expense1 else e)
    let st1 := { st with expenses := rows }
    match findTrip st1 trip_id with
    | some trip => (.ok (expense1, compute_summary trip (tripExpenses st1 trip_id)), st1)
    | none => (.error ⟨500, "Internal Server Error"⟩, st1)

-- ── delete_expense, src/budget.py lines 230-239 ──────────────────────────────

/-- DELETE expense handler. The success flag of the Python response is implicit
in the .ok constructor. -/
def delete_expense (st : Store) (trip_id expense_id : ℕ) :
    Except HTTPException Summary × Store :=
  match findExpense st trip_id expense_id with
  | none => (.error ⟨404, "Expense not found"⟩, st)
  | some _ =>
    let rows := st.expenses.filter
      (fun e => !(e.id == expense_id && e.trip_id == trip_id))
    let st1 := { st with expenses := rows }
    match findTrip st1 trip_id with
    | some trip => (.ok (compute_summary trip (tripExpenses st1 trip_id)), st1)
    | none => (.error ⟨500, "Internal Server Error"⟩, st1)

-- ── Calendar dates (datetime.date) ───────────────────────────────────────────

/-- A proleptic Gregorian calendar date, as datetime.date. -/
structure CivilDate where
  year : ℕ
  month : ℕ
  day : ℕ
  deriving DecidableEq

/-- Gregorian leap-year rule. -/
def isLeap (y : ℕ) : Bool :=
  y % 4 == 0 && (y % 100 != 0 || y % 400 == 0)

/-- Number of days in a month. -/
def daysInMonth (y m : ℕ) : ℕ :=
  if m = 2 then (if isLeap y then 29 else 28)
  else if m = 4 ∨ m = 6 ∨ m = 9 ∨ m = 11 then 30
  else 31

/-- Days in the year strictly before the first of the given month. -/
def daysBeforeMonth (y m : ℕ) : ℕ :=
  (List.range (m - 1)).foldl (fun acc i => acc + daysInMonth y (i + 1)) 0

/-- datetime.date.toordinal: day number in the proleptic Gregorian calendar,
with 0001-01-01 as day 1. Differences of ordinals are (e - s).days. -/
def toOrdinal (d : CivilDate) : ℕ :=
  let py := d.year - 1
  py * 365 + py / 4 - py / 100 + py / 400 + daysBeforeMonth d.year d.month + d.day

/-- Split a character list at every dash, keeping empty groups. -/
def splitDash : List Char → List (List Char)
  | [] => [[]]
  | c :: cs =>
    let r := splitDash cs
    if c = '-' then [] :: r
    else
      match r with
      | [] => [[c]]
      | g :: gs => (c :: g) :: gs

/-- Decimal digit check for a character. -/
def isDigitChar (c : Char) : Bool := decide ('0' ≤ c) && decide (c ≤ '9')

/-- Parse a non-empty all-digit character list as a natural number. -/
def digits? (cs : List Char) : Option ℕ :=
  if cs ≠ [] ∧ cs.all isDigitChar then
    some (cs.foldl (fun a c => a * 10 + (c.toNat - 48)) 0)
  else none

/-- datetime.date.fromisoformat on the strict YYYY-MM-DD form; any other
input raises ValueError, modelled as none. -/
def fromisoformat (s : String) : Option CivilDate :=
  match splitDash s.data with
  | [ys, ms, ds] =>
    if ys.length = 4 ∧ ms.length = 2 ∧ ds.length = 2 then
      match digits? ys, digits? ms, digits? ds with
      | some y, some m, some d =>
        if 1 ≤ y ∧ 1 ≤ m ∧ m ≤ 12 ∧ 1 ≤ d ∧ d ≤ daysInMonth y m then
          some ⟨y, m, d⟩
        else none
      | _, _, _ => none
    else none
  | _ => none

-- ── estimate_costs, src/budget.py lines 136-191 ──────────────────────────────

/-- Duration resolution of src/budget.py lines 143-153: start from the
request's duration_days; when that is falsy (absent or 0) and both stored
dates are truthy, try to replace it by the clamped date difference,
swallowing any parse failure; finally `duration or 7`. -/
def resolveDuration (req : EstimateRequest) (trip : Trip) : ℤ :=
  let d0 := req.duration_days
  let d1 :=
    if !(iTruthy d0) && sTruthy trip.start_date && sTruthy trip.end_date then
      match fromisoformat (trip.start_date.getD ""), fromisoformat (trip.end_date.getD "") with
      | some s, some e => some (max 1 ((toOrdinal e : ℤ) - (toOrdinal s : ℤ)))
      | _, _ => d0
    else d0
  match d1 with
  | some d => if d = 0 then 7 else d
  | none => 7

/-- The result field of the Language-Model Gateway response: per the interface
contract it is a JSON object of the estimate shape, or degrades to a raw
string when the model did not honour the schema. -/
inductive GenResult where
  | obj (est : Estimates)
  | str (s : String)
  deriving DecidableEq

/-- The value returned by generate_structured (src/ollama_service.py lines
60-93): the parsed result plus token-usage counters. -/
structure GenResponse where
  result : GenResult
  prompt_tokens : ℕ
  completion_tokens : ℕ
  total_duration_ms : ℕ
  deriving DecidableEq

/-- The persistence block of src/budget.py lines 178-184: the estimate blob is
written wholesale; the currency is adopted only when the trip currency is
falsy (estimates.get("currency", "USD") defaults only on an absent key); the
total is adopted only when the trip total is falsy and the estimated total is
truthy. -/
def applyEstimates (trip : Trip) (estimates : Estimates) : Trip :=
  let trip1 := { trip with budget_estimates := some estimates }
  let trip2 :=
    if !(sTruthy trip1.budget_currency) then
      { trip1 with budget_currency := some (estimates.currency.getD "USD") }
    else trip1
  if !(qTruthy trip2.budget_total) && qTruthy estimates.total then
    { trip2 with budget_total := estimates.total }
  else trip2

/-- POST estimate handler, src/budget.py lines 136-191. The single outbound
gateway call is modelled by the `gateway` argument: Except.error is a raised
transport / non-2xx exception, Except.ok the parsed response. The handler
consults it exactly once — no retry exists in the control flow. -/
def estimate_costs (st : Store) (trip_id : ℕ) (req : EstimateRequest)
    (gateway : Except String GenResponse) :
    Except HTTPException (Estimates × Summary) × Store :=
  match findTrip st trip_id with
  | none => (.error ⟨404, "Trip not found"⟩, st)
  | some trip =>
    -- The resolved duration and the trip fields feed the prompt string sent
    -- to the gateway; the prompt text itself affects no claim.
    let _duration := resolveDuration req trip
    match gateway with
    | .error e => (.error ⟨502, "Ollama error: " ++ e⟩, st)
    | .ok resp =>
      match resp.result with
      | .str _ => (.error ⟨422, "Could not parse estimates from Ollama response"⟩, st)
      | .obj estimates =>
        let trip3 := applyEstimates trip estimates
        let st1 := writeTrip st trip_id trip3
        (.ok (estimates, compute_summary trip3 (tripExpenses st1 trip_id)), st1)

-- ── Shared helper lemmas ─────────────────────────────────────────────────────

/-- Overwriting the first list element satisfying p by a fixed element that
itself satisfies p makes find? return that element. -/
theorem find?_set_const {α : Type} (p : α → Bool) (c : α) (hc : p c = true)
    (l : List α) (x : α) (h : l.find? p = some x) :
    (l.map (fun y => if p y then c else y)).find? p = some c := by
  induction l with
  | nil => simp [List.find?] at h
  | cons a l ih =>
    by_cases ha : p a
    · simp [List.find?_cons_of_pos, ha, hc]
    · rw [List.find?_cons_of_neg _ (by simp [ha])] at h
      simpa [ha, List.find?_cons_of_neg] using ih h

/-- The spent amounts in the categories list are the per-category sums. -/
theorem categories_spent_eq (trip : Trip) (expenses : List Expense) :
    (compute_summary trip expenses).categories.map (fun c => c.spent)
      = EXPENSE_CATEGORIES.map (spentFor expenses) := by
  simp only [compute_summary, List.map_map]
  rfl

/-- Splitting off the head expense from a per-category sum. -/
theorem spentFor_cons (e : Expense) (es : List Expense) (c : String) :
    spentFor (e :: es) c = (if e.category == c then e.amount else 0) + spentFor es c := by
  by_cases h : e.category == c <;> simp [spentFor, List.filter_cons, h]

/-- A sum of indicator values over a list not containing the key is zero. -/
theorem sum_ite_of_not_mem (a : ℚ) (x : String) (l : List String) (hx : x ∉ l) :
    (l.map (fun c => if x = c then a else 0)).sum = 0 := by
  induction l with
  | nil => simp
  | cons b l ih =>
    have hxb : x ≠ b := fun h => hx (h ▸ List.mem_cons_self b l)
    have hxl : x ∉ l := fun h => hx (List.mem_cons_of_mem b h)
    simp only [List.map_cons, List.sum_cons, if_neg hxb, ih hxl, zero_add]

/-- A sum of indicator values over a duplicate-free list containing the key
collapses to the single contribution. -/
theorem sum_ite_of_mem (a : ℚ) (x : String) (l : List String)
    (hnd : l.Nodup) (hx : x ∈ l) :
    (l.map (fun c => if x = c then a else 0)).sum = a := by
  induction l with
  | nil => simp at hx
  | cons b l ih =>
    rcases List.mem_cons.mp hx with hxb | hxl
    · subst hxb
      have hnl : x ∉ l := (List.nodup_cons.mp hnd).1
      simp only [List.map_cons, List.sum_cons, sum_ite_of_not_mem a x l hnl, add_zero]
      simp
    · have hxb : x ≠ b := fun h => ((List.nodup_cons.mp hnd).1 (h ▸ hxl))
      simp only [List.map_cons, List.sum_cons, if_neg hxb,
        ih (List.nodup_cons.mp hnd).2 hxl, zero_add]

/-- When every expense category lies in the fixed set, the per-category sums
add up to the raw total spend. -/
theorem catSum_eq_totalRaw (expenses : List Expense)
    (h : ∀ e ∈ expenses, e.category ∈ EXPENSE_CATEGORIES) :
    (EXPENSE_CATEGORIES.map (spentFor expenses)).sum = totalSpentRaw expenses := by
  induction expenses with
  | nil => simp [spentFor, totalSpentRaw, EXPENSE_CATEGORIES]
  | cons e es ih =>
    have he : e.category ∈ EXPENSE_CATEGORIES := h e (List.mem_cons_self e es)
    have hes : ∀ x ∈ es, x.category ∈ EXPENSE_CATEGORIES :=
      fun x hx => h x (List.mem_cons_of_mem e hx)
    have hnd : EXPENSE_CATEGORIES.Nodup := by decide
    have hfun : spentFor (e :: es)
        = fun c => (if e.category = c then e.amount else 0) + spentFor es c := by
      funext c
      rw [spentFor_cons]
      by_cases hc : e.category = c <;> simp [hc]
    calc (EXPENSE_CATEGORIES.map (spentFor (e :: es))).sum
        = (EXPENSE_CATEGORIES.map
            (fun c => (if e.category = c then e.amount else 0) + spentFor es c)).sum := by
          rw [hfun]
      _ = (EXPENSE_CATEGORIES.map (fun c => if e.category = c then e.amount else 0)).sum
            + (EXPENSE_CATEGORIES.map (spentFor es)).sum := by
          rw [← List.sum_map_add]
      _ = e.amount + totalSpentRaw es := by
          rw [sum_ite_of_mem e.amount e.category EXPENSE_CATEGORIES hnd he, ih hes]
      _ = totalSpentRaw (e :: es) := by simp [totalSpentRaw]

-- ── Concrete fixtures ────────────────────────────────────────────────────────

/-- A trip with a user-set 1000 budget and no stored dates. -/
def tripFixture : Trip :=
  { id := 1, destination := "Tokyo", start_date := none, end_date := none,
    budget_total := some 1000, budget_currency := some "USD", budget_estimates := none }

/-- The same trip with no budget set. -/
def noBudgetTrip : Trip := { tripFixture with budget_total := none }

/-- A single food expense of 150. -/
def foodExpense : Expense :=
  { id := 1, trip_id := 1, category := "food", description := "lunch",
    amount := 150, currency := "USD", date := none, notes := none }

/-- An expense whose category lies outside the fixed six-element set. -/
def flightsExpense : Expense :=
  { id := 2, trip_id := 1, category := "flights", description := "plane ticket",
    amount := 100, currency := "USD", date := none, notes := none }

/-- A store holding the fixture trip and its food expense. -/
def storeFixture : Store :=
  { trips := [tripFixture], expenses := [foodExpense], nextExpenseId := 2 }

-- ── C1 ───────────────────────────────────────────────────────────────────────

/-- C1: for every trip and expense list, total_spent is the 2-decimal rounding
of the sum of all expense amounts, and with a set (non-null, non-zero)
budget_total, remaining and pct_used are the rounded difference and the
rounded percentage; the 1000-budget trip with one 150 food expense yields
total_spent 150, pct_used 15, remaining 850, food spent 150 and every other
category spent 0. -/
theorem C1_summary_totals (trip : Trip) (expenses : List Expense) :
    (compute_summary trip expenses).total_spent = round2 (totalSpentRaw expenses)
    ∧ (∀ bt : ℚ, trip.budget_total = some bt → bt ≠ 0 →
        (compute_summary trip expenses).remaining
            = some (round2 (bt - totalSpentRaw expenses))
        ∧ (compute_summary trip expenses).pct_used
            = some (round1 (totalSpentRaw expenses / bt * 100)))
    ∧ (compute_summary tripFixture [foodExpense]).total_spent = 150
    ∧ (compute_summary tripFixture [foodExpense]).pct_used = some 15
    ∧ (compute_summary tripFixture [foodExpense]).remaining = some 850
    ∧ (compute_summary tripFixture [foodExpense]).categories.map
          (fun c => (c.category, c.spent))
        = [("accommodation", 0), ("food", 150), ("transport", 0),
           ("activities", 0), ("shopping", 0), ("other", 0)] := by
  refine ⟨by simp [compute_summary], ?_, ?_, ?_, ?_, ?_⟩
  · intro bt hbt hne
    constructor <;> simp [compute_summary, hbt, hne]
  · simp [compute_summary, totalSpentRaw, foodExpense, round2, roundHalfEven]
    norm_num
  · simp [compute_summary, totalSpentRaw, tripFixture, foodExpense, round1, roundHalfEven]
    norm_num
  · simp [compute_summary, totalSpentRaw, tripFixture, foodExpense, round2, roundHalfEven]
    norm_num
  · simp [compute_summary, categoryLine, EXPENSE_CATEGORIES, spentFor, estimatedFor,
      tripFixture, foodExpense, emptyEstimates]

/-- Witness for C1 at the fixture input. -/
theorem C1_summary_totals_witness :
    (compute_summary tripFixture [foodExpense]).remaining
        = some (round2 (1000 - totalSpentRaw [foodExpense]))
    ∧ (compute_summary tripFixture [foodExpense]).pct_used
        = some (round1 (totalSpentRaw [foodExpense] / 1000 * 100)) :=
  (C1_summary_totals tripFixture [foodExpense]).2.1 1000 rfl (by norm_num)

-- ── C2 ───────────────────────────────────────────────────────────────────────

/-- C2: with budget_total unset or zero, remaining, pct_used and every
category's pct_of_budget are null; with a zero or absent category estimate,
pct_of_estimate is null; the calculator never divides by a zero denominator. -/
theorem C2_division_guards (trip : Trip) (expenses : List Expense) :
    ((trip.budget_total = none ∨ trip.budget_total = some 0) →
      (compute_summary trip expenses).remaining = none
      ∧ (compute_summary trip expenses).pct_used = none
      ∧ ∀ c ∈ (compute_summary trip expenses).categories, c.pct_of_budget = none)
    ∧ (∀ c ∈ (compute_summary trip expenses).categories,
        c.estimated = 0 → c.pct_of_estimate = none) := by
  constructor
  · rintro (h | h) <;>
      refine ⟨by simp [compute_summary, h], by simp [compute_summary, h], ?_⟩ <;>
      · intro c hc
        simp only [compute_summary, List.mem_map] at hc
        obtain ⟨cat, _, rfl⟩ := hc
        simp [categoryLine, h]
  · intro c hc hz
    simp only [compute_summary, List.mem_map] at hc
    obtain ⟨cat, _, rfl⟩ := hc
    simp only [categoryLine] at hz ⊢
    simp [hz]

/-- Witness for C2: a trip with no budget and an empty estimate blob. -/
theorem C2_division_guards_witness :
    (compute_summary noBudgetTrip [foodExpense]).remaining = none
    ∧ (compute_summary noBudgetTrip [foodExpense]).pct_used = none :=
  ⟨((C2_division_guards noBudgetTrip [foodExpense]).1 (Or.inl rfl)).1,
   ((C2_division_guards noBudgetTrip [foodExpense]).1 (Or.inl rfl)).2.1⟩

-- ── C4 ───────────────────────────────────────────────────────────────────────

/-- C4 counterexample: for an expense list containing a category outside the
fixed set, the rounded sum of the six per-category spent values differs from
total_spent (the out-of-set amount reaches total_spent but no category row). -/
theorem C4_sum_counterexample :
    round2 (((compute_summary noBudgetTrip [flightsExpense]).categories.map
        (fun c => c.spent)).sum)
      ≠ (compute_summary noBudgetTrip [flightsExpense]).total_spent := by
  simp [compute_summary, categoryLine, EXPENSE_CATEGORIES, spentFor, totalSpentRaw,
    estimatedFor, noBudgetTrip, tripFixture, flightsExpense, emptyEstimates,
    round2, roundHalfEven]
  norm_num

/-- C4 (amended): for every trip and every expense list all of whose
categories lie in the fixed six-element set, the 2-decimal rounding of the
sum of the six per-category spent values equals the summary's total_spent. -/
theorem C4_category_sums_match_total (trip : Trip) (expenses : List Expense)
    (h : ∀ e ∈ expenses, e.category ∈ EXPENSE_CATEGORIES) :
    round2 (((compute_summary trip expenses).categories.map (fun c => c.spent)).sum)
      = (compute_summary trip expenses).total_spent := by
  rw [categories_spent_eq, catSum_eq_totalRaw expenses h]
  simp [compute_summary]

/-- Witness for C4 at the fixture input. -/
theorem C4_category_sums_match_total_witness :
    round2 (((compute_summary tripFixture [foodExpense]).categories.map
        (fun c => c.spent)).sum)
      = (compute_summary tripFixture [foodExpense]).total_spent :=
  C4_category_sums_match_total tripFixture [foodExpense]
    (by intro e he; simp at he; subst he; simp [foodExpense, EXPENSE_CATEGORIES])

-- ── C10 ──────────────────────────────────────────────────────────────────────

/-- C10: the calculator is total over out-of-domain inputs: an expense with a
category outside the fixed set adds its amount to total_spent but leaves
every per-category spent value unchanged; the categories list always holds
exactly the six fixed categories; and an estimate entry lacking the amount
key contributes an estimate of 0. -/
theorem C10_out_of_set_category (trip : Trip) (expenses : List Expense)
    (e : Expense) (hout : e.category ∉ EXPENSE_CATEGORIES) :
    (compute_summary trip (e :: expenses)).total_spent
        = round2 (e.amount + totalSpentRaw expenses)
    ∧ (compute_summary trip (e :: expenses)).categories.map (fun c => c.spent)
        = (compute_summary trip expenses).categories.map (fun c => c.spent)
    ∧ (compute_summary trip (e :: expenses)).categories.map (fun c => c.category)
        = EXPENSE_CATEGORIES
    ∧ (∀ est : Estimates, ∀ cat : String, ∀ p : String × CategoryEstimate,
        est.entries.find? (fun q => q.1 == cat) = some p → p.2.amount = none →
        estimatedFor est cat = 0) := by
  refine ⟨by simp [compute_summary, totalSpentRaw], ?_, ?_, ?_⟩
  · rw [categories_spent_eq, categories_spent_eq]
    refine List.map_congr_left (fun cat hcat => ?_)
    have hne : (e.category == cat) = false :=
      beq_eq_false_iff_ne.mpr (fun heq => hout (heq ▸ hcat))
    rw [spentFor_cons, hne]
    simp
  · simp only [compute_summary, List.map_map]
    rfl
  · intro est cat p hp hnone
    simp [estimatedFor, hp, hnone]

/-- Witness for C10 at the out-of-set fixture expense. -/
theorem C10_out_of_set_category_witness :
    (compute_summary noBudgetTrip [flightsExpense]).total_spent
        = round2 (flightsExpense.amount + totalSpentRaw [])
    ∧ (compute_summary noBudgetTrip [flightsExpense]).categories.map (fun c => c.spent)
        = (compute_summary noBudgetTrip []).categories.map (fun c => c.spent) :=
  ⟨(C10_out_of_set_category noBudgetTrip [] flightsExpense (by decide)).1,
   (C10_out_of_set_category noBudgetTrip [] flightsExpense (by decide)).2.1⟩

-- ── C3 ───────────────────────────────────────────────────────────────────────

/-- C3 (code bug): add_expense rejects the out-of-set category "flights" with
a 400 and leaves the store unchanged, but update_expense applies no category
validation at all: updating the stored food expense to category "flights"
succeeds and persists a row whose category lies outside the fixed set,
violating the documented invariant. -/
theorem C3_update_expense_skips_category_validation :
    ((add_expense storeFixture 1
        { category := "flights", description := "plane ticket", amount := 100 }).1
      = Except.error ⟨400, "category must be one of: accommodation, food, transport, activities, shopping, other"⟩)
    ∧ (add_expense storeFixture 1
        { category := "flights", description := "plane ticket", amount := 100 }).2
      = storeFixture
    ∧ (∃ r, (update_expense storeFixture 1 1 { category := some "flights" }).1
          = Except.ok r)
    ∧ (update_expense storeFixture 1 1 { category := some "flights" }).2.expenses.map
          (fun e => e.category)
      = ["flights"] := by
  refine ⟨?_, ?_, ⟨_, rfl⟩, ?_⟩
  · rfl
  · rfl
  · rfl

-- ── C5 ───────────────────────────────────────────────────────────────────────

/-- C5: with the trip present, a failed gateway call surfaces as a 502 error
carrying the underlying message, and a gateway result that degrades to a raw
string surfaces as a 422 parse error; in both cases the handler consults the
gateway outcome once and the store is returned unchanged. -/
theorem C5_gateway_failure_paths (st : Store) (tid : ℕ) (req : EstimateRequest)
    (trip : Trip) (msg : String) (resp : GenResponse) (s : String)
    (ht : findTrip st tid = some trip) :
    estimate_costs st tid req (Except.error msg)
      = (Except.error ⟨502, "Ollama error: " ++ msg⟩, st)
    ∧ (resp.result = GenResult.str s →
        estimate_costs st tid req (Except.ok resp)
          = (Except.error ⟨422, "Could not parse estimates from Ollama response"⟩, st)) := by
  constructor
  · simp [estimate_costs, ht]
  · intro h
    simp [estimate_costs, ht, h]

/-- Fixture gateway response that degraded to a raw string. -/
def rawStringResponse : GenResponse :=
  { result := GenResult.str "not json", prompt_tokens := 12,
    completion_tokens := 40, total_duration_ms := 900 }

/-- Witness for C5 at the fixture store. -/
theorem C5_gateway_failure_paths_witness :
    estimate_costs storeFixture 1 {} (Except.error "connection refused")
      = (Except.error ⟨502, "Ollama error: " ++ "connection refused"⟩, storeFixture)
    ∧ estimate_costs storeFixture 1 {} (Except.ok rawStringResponse)
      = (Except.error ⟨422, "Could not parse estimates from Ollama response"⟩, storeFixture) :=
  ⟨(C5_gateway_failure_paths storeFixture 1 {} tripFixture "connection refused"
      rawStringResponse "not json" rfl).1,
   (C5_gateway_failure_paths storeFixture 1 {} tripFixture "connection refused"
      rawStringResponse "not json" rfl).2 rfl⟩

-- ── C6 ───────────────────────────────────────────────────────────────────────

/-- C6 counterexample: the claim requires a caller-supplied duration to be
used only when positive, with fallback to 7 for a trip without dates; the
code's falsy check lets a negative supplied duration through unchanged. -/
theorem C6_negative_duration_counterexample :
    resolveDuration { duration_days := some (-3) } tripFixture = -3
    ∧ resolveDuration { duration_days := some (-3) } tripFixture ≠ 7 := by
  constructor <;> decide

/-- C6 (amended): the estimator uses the caller-supplied duration whenever it
is present and non-zero (negative values included); otherwise, with both
dates stored non-empty and parseable, it uses the day difference clamped to
at least 1; otherwise (dates missing, empty or unparseable) it uses 7. -/
theorem C6_duration_resolution (req : EstimateRequest) (trip : Trip) :
    (∀ d : ℤ, req.duration_days = some d → d ≠ 0 → resolveDuration req trip = d)
    ∧ (iTruthy req.duration_days = false →
        (∀ s e : String, ∀ ds de : CivilDate,
          trip.start_date = some s → s ≠ "" → trip.end_date = some e → e ≠ "" →
          fromisoformat s = some ds → fromisoformat e = some de →
          resolveDuration req trip = max 1 ((toOrdinal de : ℤ) - (toOrdinal ds : ℤ)))
        ∧ ((sTruthy trip.start_date = false ∨ sTruthy trip.end_date = false
            ∨ fromisoformat (trip.start_date.getD "") = none
            ∨ fromisoformat (trip.end_date.getD "") = none) →
          resolveDuration req trip = 7)) := by
  constructor
  · intro d hd hdne
    simp [resolveDuration, hd, iTruthy, hdne]
  · intro hfalsy
    have hd0 : req.duration_days = none ∨ req.duration_days = some 0 := by
      cases hq : req.duration_days with
      | none => exact Or.inl rfl
      | some d =>
        rw [hq] at hfalsy
        simp [iTruthy] at hfalsy
        exact Or.inr (by rw [hfalsy])
    constructor
    · intro s e ds de hs hsne he hene hps hpe
      rcases hd0 with hq | hq <;>
      · simp only [resolveDuration, hq, hs, he, Option.getD_some]
        simp only [iTruthy, sTruthy]
        simp [hsne, hene, hps, hpe]
        have h1 : (1 : ℤ) ≤ max 1 ((toOrdinal de : ℤ) - (toOrdinal ds : ℤ)) :=
          le_max_left _ _
        intro h0
        omega
    · intro hdisj
      unfold resolveDuration
      rcases hd0 with hq | hq <;> rw [hq] <;>
      · cases hs1 : sTruthy trip.start_date with
        | false => simp [iTruthy, hs1]
        | true =>
          cases he1 : sTruthy trip.end_date with
          | false => simp [iTruthy, hs1, he1]
          | true =>
            cases hps : fromisoformat (trip.start_date.getD "") with
            | none => simp [iTruthy, hs1, he1, hps]
            | some d1 =>
              cases hpe : fromisoformat (trip.end_date.getD "") with
              | none => simp [iTruthy, hs1, he1, hps, hpe]
              | some d2 =>
                exfalso
                rcases hdisj with hp | hp | hp | hp
                · rw [hs1] at hp; exact Bool.noConfusion hp
                · rw [he1] at hp; exact Bool.noConfusion hp
                · rw [hps] at hp; exact Option.noConfusion hp
                · rw [hpe] at hp; exact Option.noConfusion hp

/-- Witness for C6: a trip with no dates and a falsy request duration resolves
to 7 days, and a trip with stored dates resolves to their clamped difference. -/
theorem C6_duration_resolution_witness :
    resolveDuration {} tripFixture = 7
    ∧ resolveDuration {}
        { tripFixture with start_date := some "2024-03-10", end_date := some "2024-03-15" }
      = max 1 ((toOrdinal ⟨2024, 3, 15⟩ : ℤ) - (toOrdinal ⟨2024, 3, 10⟩ : ℤ)) :=
  ⟨((C6_duration_resolution {} tripFixture).2 rfl).2 (Or.inl rfl),
   ((C6_duration_resolution {}
        { tripFixture with start_date := some "2024-03-10", end_date := some "2024-03-15" }).2
      rfl).1 "2024-03-10" "2024-03-15" ⟨2024, 3, 10⟩ ⟨2024, 3, 15⟩
      rfl (by decide) rfl (by decide) (by decide) (by decide)⟩

-- ── C7 ───────────────────────────────────────────────────────────────────────

/-- The trip id survives the persistence step of an estimation call. -/
theorem applyEstimates_id (trip : Trip) (est : Estimates) :
    (applyEstimates trip est).id = trip.id := by
  simp only [applyEstimates]
  split_ifs <;> rfl

/-- C7: on a schema-conforming gateway result, the stored trip row becomes
applyEstimates trip est: budget_estimates is overwritten wholesale with the
full result; the currency is adopted only when no trip currency was set; and
the total is adopted only when no budget_total was set, so a user-set
budget_total is never overwritten. -/
theorem C7_estimate_persistence (st : Store) (tid : ℕ) (req : EstimateRequest)
    (trip : Trip) (resp : GenResponse) (est : Estimates)
    (ht : findTrip st tid = some trip) (hr : resp.result = GenResult.obj est) :
    findTrip (estimate_costs st tid req (Except.ok resp)).2 tid
        = some (applyEstimates trip est)
    ∧ (applyEstimates trip est).budget_estimates = some est
    ∧ (sTruthy trip.budget_currency = true →
        (applyEstimates trip est).budget_currency = trip.budget_currency)
    ∧ (sTruthy trip.budget_currency = false →
        (applyEstimates trip est).budget_currency = some (est.currency.getD "USD"))
    ∧ (qTruthy trip.budget_total = true →
        (applyEstimates trip est).budget_total = trip.budget_total)
    ∧ (qTruthy trip.budget_total = false → qTruthy est.total = true →
        (applyEstimates trip est).budget_total = est.total)
    ∧ (qTruthy trip.budget_total = false → qTruthy est.total = false →
        (applyEstimates trip est).budget_total = trip.budget_total) := by
  have ht' : st.trips.find? (fun t => t.id == tid) = some trip := ht
  have hpc : ((applyEstimates trip est).id == tid) = true := by
    rw [applyEstimates_id]
    exact List.find?_some (p := fun t => t.id == tid) (a := trip) ht'
  refine ⟨?_, ?_, ?_, ?_, ?_, ?_, ?_⟩
  · have h2 : (estimate_costs st tid req (Except.ok resp)).2
        = writeTrip st tid (applyEstimates trip est) := by
      simp only [estimate_costs, ht, hr]
    rw [h2]
    exact find?_set_const (fun t => t.id == tid) (applyEstimates trip est)
      hpc st.trips trip ht'
  · simp only [applyEstimates]
    split_ifs <;> rfl
  · intro h
    simp only [applyEstimates]
    split_ifs <;> simp_all
  · intro h
    simp only [applyEstimates]
    split_ifs <;> simp_all
  · intro h
    simp only [applyEstimates]
    split_ifs <;> simp_all
  · intro h1 h2
    simp only [applyEstimates]
    split_ifs <;> simp_all
  · intro h1 h2
    simp only [applyEstimates]
    split_ifs <;> simp_all

/-- Fixture estimate blob returned by the gateway. -/
def estimatesFixture : Estimates :=
  { entries := [("food", { amount := some 320, notes := some "street food" })],
    total := some 900, currency := some "JPY", summary := some "ok" }

/-- Fixture gateway response carrying the estimate blob. -/
def objResponse : GenResponse :=
  { result := GenResult.obj estimatesFixture, prompt_tokens := 12,
    completion_tokens := 80, total_duration_ms := 1200 }

/-- Witness for C7: the fixture trip already has budget_total 1000, and the
estimation call leaves it unchanged while storing the blob. -/
theorem C7_estimate_persistence_witness :
    findTrip (estimate_costs storeFixture 1 {} (Except.ok objResponse)).2 1
        = some (applyEstimates tripFixture estimatesFixture)
    ∧ (applyEstimates tripFixture estimatesFixture).budget_estimates
        = some estimatesFixture
    ∧ (applyEstimates tripFixture estimatesFixture).budget_total
        = tripFixture.budget_total :=
  ⟨(C7_estimate_persistence storeFixture 1 {} tripFixture objResponse
      estimatesFixture rfl rfl).1,
   (C7_estimate_persistence storeFixture 1 {} tripFixture objResponse
      estimatesFixture rfl rfl).2.1,
   (C7_estimate_persistence storeFixture 1 {} tripFixture objResponse
      estimatesFixture rfl rfl).2.2.2.2.1 (by decide)⟩

-- ── C8 ───────────────────────────────────────────────────────────────────────

/-- The trip id survives a settings update. -/
theorem applySettings_id (trip : Trip) (data : BudgetUpdate) :
    (applySettings trip data).id = trip.id := by
  simp only [applySettings]
  cases data.budget_total <;> cases data.budget_currency <;> rfl

/-- C8: update-settings applies partial-update semantics — an absent
budget_total leaves the stored total untouched, an absent budget_currency
leaves the stored currency untouched, a supplied currency is stored
upper-cased — and the call returns the summary recomputed from the updated
trip. -/
theorem C8_settings_partial_update (st : Store) (tid : ℕ) (data : BudgetUpdate)
    (trip : Trip) (ht : findTrip st tid = some trip) :
    findTrip (update_budget_settings st tid data).2 tid
        = some (applySettings trip data)
    ∧ (data.budget_total = none →
        (applySettings trip data).budget_total = trip.budget_total)
    ∧ (∀ v : ℚ, data.budget_total = some v →
        (applySettings trip data).budget_total = some v)
    ∧ (data.budget_currency = none →
        (applySettings trip data).budget_currency = trip.budget_currency)
    ∧ (∀ c : String, data.budget_currency = some c →
        (applySettings trip data).budget_currency = some (pyUpper c))
    ∧ (update_budget_settings st tid data).1
        = Except.ok (compute_summary (applySettings trip data)
            (tripExpenses (update_budget_settings st tid data).2 tid)) := by
  have ht' : st.trips.find? (fun t => t.id == tid) = some trip := ht
  have hpc : ((applySettings trip data).id == tid) = true := by
    rw [applySettings_id]
    exact List.find?_some (p := fun t => t.id == tid) (a := trip) ht'
  refine ⟨?_, ?_, ?_, ?_, ?_, ?_⟩
  · have h2 : (update_budget_settings st tid data).2
        = writeTrip st tid (applySettings trip data) := by
      simp only [update_budget_settings, ht]
    rw [h2]
    exact find?_set_const (fun t => t.id == tid) (applySettings trip data)
      hpc st.trips trip ht'
  · intro h
    simp only [applySettings, h]
    cases data.budget_currency <;> rfl
  · intro v h
    simp only [applySettings, h]
    cases data.budget_currency <;> rfl
  · intro h
    simp only [applySettings, h]
    cases data.budget_total <;> rfl
  · intro c h
    simp only [applySettings, h]
  · simp only [update_budget_settings, ht]

/-- Witness for C8: supplying only a lowercase currency leaves the fixture
budget_total at 1000 and stores the currency upper-cased. -/
theorem C8_settings_partial_update_witness :
    (applySettings tripFixture { budget_currency := some "eur" }).budget_total
        = some 1000
    ∧ (applySettings tripFixture { budget_currency := some "eur" }).budget_currency
        = some "EUR"
    ∧ findTrip (update_budget_settings storeFixture 1
          { budget_currency := some "eur" }).2 1
        = some (applySettings tripFixture { budget_currency := some "eur" }) := by
  have h := C8_settings_partial_update storeFixture 1
    { budget_currency := some "eur" } tripFixture rfl
  exact ⟨by rw [h.2.1 rfl]; rfl, by rw [h.2.2.2.2.1 "eur" rfl]; decide, h.1⟩

-- ── C9 ───────────────────────────────────────────────────────────────────────

/-- C9: each mutator returns a 404 error and an unchanged store when the
referenced trip (settings, add-expense) or expense (update, delete) is
missing; expense lookup is scoped to the claimed trip id, so an expense id
held by a different trip is likewise treated as not found. -/
theorem C9_not_found_conditions (st : Store) (tid eid : ℕ) (data : BudgetUpdate)
    (cdata : ExpenseCreate) (udata : ExpenseUpdate) :
    (findTrip st tid = none →
        update_budget_settings st tid data = (Except.error ⟨404, "Trip not found"⟩, st)
        ∧ add_expense st tid cdata = (Except.error ⟨404, "Trip not found"⟩, st))
    ∧ (findExpense st tid eid = none →
        update_expense st tid eid udata
            = (Except.error ⟨404, "Expense not found"⟩, st)
        ∧ delete_expense st tid eid = (Except.error ⟨404, "Expense not found"⟩, st))
    ∧ ((∀ e ∈ st.expenses, e.id = eid → e.trip_id ≠ tid) →
        update_expense st tid eid udata
            = (Except.error ⟨404, "Expense not found"⟩, st)
        ∧ delete_expense st tid eid = (Except.error ⟨404, "Expense not found"⟩, st)) := by
  have hscope : (∀ e ∈ st.expenses, e.id = eid → e.trip_id ≠ tid) →
      findExpense st tid eid = none := by
    intro h
    refine List.find?_eq_none.mpr (fun e he => ?_)
    intro hb
    rcases Bool.and_eq_true_iff.mp hb with ⟨h1, h2⟩
    exact h e he (by simpa using h1) (by simpa using h2)
  refine ⟨?_, ?_, ?_⟩
  · intro h
    exact ⟨by simp [update_budget_settings, h], by simp [add_expense, h]⟩
  · intro h
    exact ⟨by simp [update_expense, h], by simp [delete_expense, h]⟩
  · intro h
    exact ⟨by simp [update_expense, hscope h], by simp [delete_expense, hscope h]⟩

/-- The empty store. -/
def emptyStore : Store := { trips := [], expenses := [], nextExpenseId := 1 }

/-- Witness for C9: 404 on the empty store, and 404 for the fixture expense
queried under a different trip id. -/
theorem C9_not_found_conditions_witness :
    update_budget_settings emptyStore 1 {} = (Except.error ⟨404, "Trip not found"⟩, emptyStore)
    ∧ delete_expense emptyStore 1 1 = (Except.error ⟨404, "Expense not found"⟩, emptyStore)
    ∧ update_expense storeFixture 2 1 {} = (Except.error ⟨404, "Expense not found"⟩, storeFixture) :=
  ⟨((C9_not_found_conditions emptyStore 1 1 {}
      { category := "food", description := "x", amount := 1 } {}).1 rfl).1,
   ((C9_not_found_conditions emptyStore 1 1 {}
      { category := "food", description := "x", amount := 1 } {}).2.1 rfl).2,
   ((C9_not_found_conditions storeFixture 2 1 {}
      { category := "food", description := "x", amount := 1 } {}).2.2 (by decide)).1⟩

end WanderPlan
